import Mathlib

/-!
Verification of the OurNest single-page client (`frontend/src/App.jsx`).

The component is a single React function holding its whole UI state in
`useState` hooks and synchronising it with a REST backend.  We embed that
state as one Lean structure `AppState`, mirror every entity record, and
model each event handler as a pure function
`AppState → inputs → AppState × List Request`: the returned state is the
state after all the handler's synchronous `setX` calls, and the returned
list is the HTTP requests the handler issues from that state.  Handlers
that run after a network response resolves take the decoded response as an
explicit argument (`FetchResp`, `MarkPaidResp`, ...), with constructors for
a 2xx body, a non-2xx response, and a thrown network/JSON exception.
-/

/-- Apartment record as returned by the backend (id, name, city, total_units). -/
structure Apartment where
  id : Nat
  name : String
  city : String
  total_units : Nat
deriving Repr, DecidableEq

/-- Unit record (id, name, bhk_type, status).  Named `AptUnit` because `Unit`
is taken in Lean; fields keep the source names. -/
structure AptUnit where
  id : Nat
  name : String
  bhk_type : String
  status : String
deriving Repr, DecidableEq

/-- Occupant record (id, name, phone, role, is_active). -/
structure Occupant where
  id : Nat
  name : String
  phone : String
  role : String
  is_active : Bool
deriving Repr, DecidableEq

/-- Invoice record (id, period_label, amount, due_date, status). -/
structure Invoice where
  id : Nat
  period_label : String
  amount : Int
  due_date : String
  status : String
deriving Repr, DecidableEq

/-- Dashboard summary body (`GET /dashboard`): overall due/paid totals. -/
structure Dashboard where
  overall_due_amount : Int
  overall_paid_amount : Int
deriving Repr, DecidableEq

/-- The component state: one field per `useState` hook of `App`, in source
order.  Ids that may be `null` in JS are `Option Nat`. -/
structure AppState where
  mobile : String
  requestId : Option Nat
  otp : String
  accessToken : String
  step : String
  error : String
  backendStatus : String
  showPopup : Bool
  popupMessage : String
  popupType : String
  aptName : String
  aptCity : String
  aptUnits : String
  aptMessage : String
  createdApartments : List Apartment
  editingApartmentId : Option Nat
  aptNameExists : Bool
  selectedApartmentId : Option Nat
  selectedApartmentName : String
  units : List AptUnit
  unitName : String
  unitBhk : String
  unitStatus : String
  unitMessage : String
  editingUnitId : Option Nat
  unitNameExists : Bool
  selectedUnitId : Option Nat
  selectedUnitLabel : String
  occupants : List Occupant
  occName : String
  occPhone : String
  occRole : String
  occMessage : String
  editingOccupantId : Option Nat
  occPhoneExists : Bool
  invoices : List Invoice
  invPeriod : String
  invAmount : String
  invDueDate : String
  invMessage : String
  invFilterMonth : String
  editingInvoiceId : Option Nat
  dashboard : Option Dashboard
deriving Repr, DecidableEq

/-- HTTP requests the client can issue, one constructor per distinct call
site shape.  Ids that come from possibly-null state are `Option Nat`
(JS would interpolate `null` into the URL). -/
inductive Request where
  | postSendOtp (mobile : String)
  | postVerifyOtp (requestId : Option Nat) (mobile : String) (otp : String)
  | getApartments (token : String)
  | getDashboard (token : String)
  | getUnits (apartmentId : Option Nat)
  | getOccupants (unitId : Nat)
  | getInvoices (unitId : Option Nat) (month : Option String)
  | postCreateInvoice (editing : Option Nat) (unitId : Nat) (period : String)
      (amount : Option Int) (dueDate : String)
  | postMarkPaid (invoiceId : Nat)
  | deleteUnitReq (unitId : Nat)
deriving Repr, DecidableEq

/-- Outcome of a GET whose handler reads one array field out of the JSON
body: a 2xx response whose field is present (`ok (some l)`) or absent /
falsy (`ok none`), a non-2xx response with its status code, or a thrown
fetch/JSON exception. -/
inductive FetchResp (α : Type) where
  | ok (body : Option α)
  | httpError (status : Nat)
  | netError
deriving Repr, DecidableEq

/-- Outcome of `GET /dashboard`: a 2xx response always carries a JSON body. -/
inductive DashResp where
  | ok (d : Dashboard)
  | httpError (status : Nat)
  | netError
deriving Repr, DecidableEq

/-- Outcome of `POST /auth/verify-otp`: 2xx with `access_token`, non-2xx
with optional `detail`, or an exception. -/
inductive VerifyResp where
  | ok (access_token : String)
  | httpError (detail : Option String)
  | netError
deriving Repr, DecidableEq

/-- Outcome of `POST /invoices/:id/mark-paid`. -/
inductive MarkPaidResp where
  | ok
  | httpError (detail : Option String)
  | netError
deriving Repr, DecidableEq

/-- Outcome of `DELETE /units/:id`. -/
inductive DeleteResp where
  | ok
  | httpError (detail : Option String)
  | netError
deriving Repr, DecidableEq

/-- `showPopupMessage(message, type)`: sets the popup message, type and
visibility (the auto-hide timer is not modelled). -/
def showPopupMessage (σ : AppState) (message : String) (ptype : String) : AppState :=
  { σ with popupMessage := message, popupType := ptype, showPopup := true }

/-- `'0' <= c && c <= '9'`, the character class `\d` of the mobile regex. -/
def isDigitChar (c : Char) : Bool := '0' ≤ c && c ≤ '9'

/-- The regex `^[6-9]\d{9}$` on a list of characters: a first character in
the class `[6-9]` followed by exactly nine characters in `\d`. -/
def isMobileChars : List Char → Bool
  | [] => false
  | c :: rest =>
      (c == '6' || c == '7' || c == '8' || c == '9')
        && rest.length == 9 && rest.all isDigitChar

/-- `isValidMobile`: `/^[6-9]\d{9}$/.test(mobile)` (App.jsx line 68). -/
def isValidMobile (s : String) : Bool := isMobileChars s.data

/-- The spec's wording on a list of characters: exactly 10 decimal digits
whose first digit is 6, 7, 8 or 9. -/
def mobileSpecChars (l : List Char) : Bool :=
  l.length == 10 && l.all isDigitChar
    && (match l with
        | c :: _ => c == '6' || c == '7' || c == '8' || c == '9'
        | [] => false)

/-- The spec's wording for comparison: the string is exactly 10 decimal
digits and its first digit is 6, 7, 8 or 9. -/
def mobileSpec (s : String) : Bool := mobileSpecChars s.data

/-- `sendOtp` up to the network call: on an invalid mobile it sets the
error and returns without fetching; otherwise it clears the error and
issues `POST /auth/send-otp`. -/
def sendOtp (σ : AppState) : AppState × List Request :=
  if isValidMobile σ.mobile then
    ({ σ with error := "" }, [Request.postSendOtp σ.mobile])
  else
    ({ σ with error := "Invalid mobile number" }, [])

/-- JS `month || undefined` on the `invFilterMonth` string: the empty
string is falsy and becomes no query parameter. -/
def monthArg (m : String) : Option String := if m = "" then none else some m

/-- `fetchDashboard(token)` up to its network call: it returns early when
`mobile` is falsy (empty), otherwise issues `GET /dashboard`. -/
def fetchDashboardCall (σ : AppState) (token : String) : List Request :=
  if σ.mobile = "" then [] else [Request.getDashboard token]

/-- Value of a run of decimal digits, `none` when the run is empty
(JS `parseInt` yields `NaN` when no digit is found). -/
def digitsVal : List Char → Option Nat
  | [] => none
  | l => some (l.foldl (fun a c => a * 10 + (c.toNat - '0'.toNat)) 0)

/-- JS `parseInt` on the amount field, base 10: skip leading spaces, an
optional sign, then the longest run of decimal digits; `none` models `NaN`. -/
def parseIntJS (s : String) : Option Int :=
  let l := s.data.dropWhile (fun c => c = ' ')
  match l with
  | '-' :: rest => (digitsVal (rest.takeWhile isDigitChar)).map (fun n => -(n : Int))
  | '+' :: rest => (digitsVal (rest.takeWhile isDigitChar)).map (fun n => (n : Int))
  | _ => (digitsVal (l.takeWhile isDigitChar)).map (fun n => (n : Int))

/-- The guard `!invAmount || parseInt(invAmount) <= 0`: the field is empty,
or it parses to a number that is ≤ 0 (`NaN <= 0` is false in JS). -/
def invAmountInvalid (s : String) : Bool :=
  s == "" || (parseIntJS s).elim false (fun n => decide (n ≤ 0))

/-- `handleSelectApartment(apt)`: record the selection, clear the unit
message, the unit list, the unit selection, the occupant list and the
invoice list, then fetch the apartment's units. -/
def handleSelectApartment (σ : AppState) (apt : Apartment) : AppState × List Request :=
  ({ σ with
      selectedApartmentId := some apt.id,
      selectedApartmentName := apt.name,
      unitMessage := "",
      units := [],
      selectedUnitId := none,
      selectedUnitLabel := "",
      occupants := [],
      invoices := [] },
   [Request.getUnits (some apt.id)])

/-- `handleSelectUnit(u)`: record the selection, reset the occupant and
invoice form fields and messages, then fetch the unit's occupants and
invoices (with the current month filter).  Note that it does not touch the
`occupants` and `invoices` lists themselves. -/
def handleSelectUnit (σ : AppState) (u : AptUnit) : AppState × List Request :=
  ({ σ with
      selectedUnitId := some u.id,
      selectedUnitLabel := u.name ++ " (" ++ u.bhk_type ++ ", " ++ u.status ++ ")",
      occMessage := "",
      occName := "",
      occPhone := "",
      occRole := "owner",
      invMessage := "",
      invPeriod := "",
      invAmount := "",
      invDueDate := "" },
   [Request.getOccupants u.id,
    Request.getInvoices (some u.id) (monthArg σ.invFilterMonth)])

/-- `createInvoice` up to the network call: guard on a selected unit,
clear the inline invoice message, run the four validations in source
order (each failure shows a popup and returns), then issue the POST/PUT
with the parsed amount. -/
def createInvoice (σ : AppState) : AppState × List Request :=
  match σ.selectedUnitId with
  | none => (showPopupMessage σ "Please select a unit first." "error", [])
  | some uid =>
    let σ1 := { σ with invMessage := "" }
    if σ1.invPeriod.trim = "" then
      (showPopupMessage σ1 "Period label is required (e.g., \x27Jan 2024\x27)" "error", [])
    else if σ1.invPeriod.trim.length < 3 then
      (showPopupMessage σ1 "Period label must be at least 3 characters" "error", [])
    else if invAmountInvalid σ1.invAmount then
      (showPopupMessage σ1 "Amount must be greater than 0" "error", [])
    else if σ1.invDueDate = "" then
      (showPopupMessage σ1 "Due date is required" "error", [])
    else
      (σ1,
       [Request.postCreateInvoice σ1.editingInvoiceId uid σ1.invPeriod.trim
          (parseIntJS σ1.invAmount) σ1.invDueDate])

/-- `verifyOtp` with the resolved outcome of its POST: the error is
cleared before the call; on 2xx the token is stored, the step becomes
"apartment", the apartment message is set, and `fetchApartments(token)`
and `fetchDashboard(token)` are triggered; on non-2xx or exception only
the error message is set. -/
def verifyOtp (σ : AppState) (r : VerifyResp) : AppState × List Request :=
  let σ0 := { σ with error := "" }
  match r with
  | .ok tok =>
      ({ σ0 with
          accessToken := tok,
          step := "apartment",
          aptMessage := "OTP verified! Let\x27s onboard your apartment." },
       [Request.getApartments tok] ++ fetchDashboardCall σ0 tok)
  | .httpError d => ({ σ0 with error := d.getD "OTP verification failed" }, [])
  | .netError => ({ σ0 with error := "Could not reach server." }, [])

/-- `fetchApartments` with the resolved outcome of its GET: on 2xx the
list becomes `data.apartments || []`; on non-2xx or exception it becomes
`[]`.  No other field is touched (in particular no 401 handling). -/
def fetchApartmentsResponse (σ : AppState) (r : FetchResp (List Apartment)) : AppState :=
  match r with
  | .ok body => { σ with createdApartments := body.getD [] }
  | .httpError _ => { σ with createdApartments := [] }
  | .netError => { σ with createdApartments := [] }

/-- `fetchDashboard` with the resolved outcome of its GET: on 2xx the
body is stored; on non-2xx or exception the dashboard becomes `null`. -/
def fetchDashboardResponse (σ : AppState) (r : DashResp) : AppState :=
  match r with
  | .ok d => { σ with dashboard := some d }
  | .httpError _ => { σ with dashboard := none }
  | .netError => { σ with dashboard := none }

/-- `fetchUnits` response handling: `data.units || []` on 2xx, `[]`
otherwise. -/
def fetchUnitsResponse (σ : AppState) (r : FetchResp (List AptUnit)) : AppState :=
  match r with
  | .ok body => { σ with units := body.getD [] }
  | .httpError _ => { σ with units := [] }
  | .netError => { σ with units := [] }

/-- `fetchOccupants` response handling: `data.occupants || []` on 2xx,
`[]` otherwise. -/
def fetchOccupantsResponse (σ : AppState) (r : FetchResp (List Occupant)) : AppState :=
  match r with
  | .ok body => { σ with occupants := body.getD [] }
  | .httpError _ => { σ with occupants := [] }
  | .netError => { σ with occupants := [] }

/-- `fetchInvoices` response handling: `data.invoices || []` on 2xx, `[]`
otherwise. -/
def fetchInvoicesResponse (σ : AppState) (r : FetchResp (List Invoice)) : AppState :=
  match r with
  | .ok body => { σ with invoices := body.getD [] }
  | .httpError _ => { σ with invoices := [] }
  | .netError => { σ with invoices := [] }

/-- The list a fetch handler should end up holding: the 2xx body's array
when present, the empty list in every other case. -/
def respList {α : Type} : FetchResp (List α) → List α
  | .ok (some l) => l
  | .ok none => []
  | .httpError _ => []
  | .netError => []

/-- `markPaid(invoiceId)` with the resolved outcome of its POST: on 2xx it
shows the success popup and triggers `fetchInvoices(selectedUnitId,
invFilterMonth || undefined)` and `fetchDashboard()`; on non-2xx or
exception it shows an error popup and triggers nothing. -/
def markPaid (σ : AppState) (invoiceId : Nat) (r : MarkPaidResp) : AppState × List Request :=
  match r with
  | .ok =>
      (showPopupMessage σ "Invoice marked as paid!" "success",
       [Request.getInvoices σ.selectedUnitId (monthArg σ.invFilterMonth)]
         ++ fetchDashboardCall σ σ.accessToken)
  | .httpError d =>
      (showPopupMessage σ (d.getD "Could not mark invoice as paid.") "error", [])
  | .netError => (showPopupMessage σ "Could not reach server." "error", [])

/-- `deleteUnit(unitId)` with the confirm-dialog answer and the resolved
outcome of its DELETE: unconfirmed deletes do nothing; on 2xx it shows the
success popup, refreshes the unit list and dashboard, and clears the unit
selection together with the occupant and invoice lists exactly when the
deleted unit was the selected one; on failure only an error popup. -/
def deleteUnit (σ : AppState) (unitId : Nat) (confirmed : Bool) (r : DeleteResp) :
    AppState × List Request :=
  if confirmed then
    match r with
    | .ok =>
        let σ1 := showPopupMessage σ "Unit deleted successfully!" "success"
        let σ2 :=
          if σ1.selectedUnitId = some unitId then
            { σ1 with
                selectedUnitId := none,
                selectedUnitLabel := "",
                occupants := [],
                invoices := [] }
          else σ1
        (σ2,
         [Request.getUnits σ.selectedApartmentId] ++ fetchDashboardCall σ σ.accessToken)
    | .httpError d => (showPopupMessage σ (d.getD "Could not delete unit.") "error", [])
    | .netError => (showPopupMessage σ "Could not reach server." "error", [])
  else (σ, [])

/-- The invoice-summary line of the render:
`invoices.filter(i => i.status === 'due').reduce((sum, i) => sum + i.amount, 0)`. -/
def invoiceTotalDue (invs : List Invoice) : Int :=
  (invs.filter (fun i => i.status == "due")).foldl (fun sum i => sum + i.amount) 0

/-- The spec's wording for comparison: the sum of `amount` over exactly
the invoices whose status is "due"; any other status contributes 0. -/
def sumDueAmounts : List Invoice → Int
  | [] => 0
  | i :: rest => (if i.status = "due" then i.amount else 0) + sumDueAmounts rest

/-- A state with every field at its `useState` initial value (the render
with `dashboard = null`, nothing selected, empty lists). -/
def baseState : AppState :=
  { mobile := ""
    requestId := none
    otp := ""
    accessToken := ""
    step := "mobile"
    error := ""
    backendStatus := "checking..."
    showPopup := false
    popupMessage := ""
    popupType := "error"
    aptName := ""
    aptCity := ""
    aptUnits := ""
    aptMessage := ""
    createdApartments := []
    editingApartmentId := none
    aptNameExists := false
    selectedApartmentId := none
    selectedApartmentName := ""
    units := []
    unitName := ""
    unitBhk := "2BHK"
    unitStatus := "vacant"
    unitMessage := ""
    editingUnitId := none
    unitNameExists := false
    selectedUnitId := none
    selectedUnitLabel := ""
    occupants := []
    occName := ""
    occPhone := ""
    occRole := "owner"
    occMessage := ""
    editingOccupantId := none
    occPhoneExists := false
    invoices := []
    invPeriod := ""
    invAmount := ""
    invDueDate := ""
    invMessage := ""
    invFilterMonth := ""
    editingInvoiceId := none
    dashboard := none }

/-- Occupant used in concrete test states. -/
def exOccupant : Occupant :=
  { id := 1, name := "Asha", phone := "9876543210", role := "owner", is_active := true }

/-- Due invoice used in concrete test states. -/
def exInvoice : Invoice :=
  { id := 1, period_label := "Jan 2024", amount := 1200,
    due_date := "2024-01-31", status := "due" }

/-- Paid invoice used in concrete test states. -/
def exInvoicePaid : Invoice :=
  { id := 2, period_label := "Feb 2024", amount := 800,
    due_date := "2024-02-28", status := "paid" }

/-- Unit used in concrete test states. -/
def exUnitA : AptUnit := { id := 2, name := "A-101", bhk_type := "2BHK", status := "vacant" }

/-- Apartment used in concrete test states. -/
def exApartment : Apartment := { id := 1, name := "Green Villa", city := "Pune", total_units := 10 }

/-- The regex embedding and the spec wording agree on every character list. -/
theorem isMobileChars_eq_mobileSpecChars (l : List Char) :
    isMobileChars l = mobileSpecChars l := by
  cases l with
  | nil => rfl
  | cons c rest =>
      rw [Bool.eq_iff_iff]
      simp only [isMobileChars, mobileSpecChars, Bool.and_eq_true, Bool.or_eq_true,
        beq_iff_eq, List.all_cons, List.length_cons]
      constructor
      · rintro ⟨⟨hc, hlen⟩, hall⟩
        have hd : isDigitChar c = true := by
          rcases hc with ((h | h) | h) | h <;> subst h <;> decide
        exact ⟨⟨by omega, hd, hall⟩, hc⟩
      · rintro ⟨⟨hlen, _, hall⟩, hc⟩
        exact ⟨⟨hc, by omega⟩, hall⟩

/-- The regex embedding and the spec wording agree on every string. -/
theorem isValidMobile_eq_mobileSpec (s : String) : isValidMobile s = mobileSpec s :=
  isMobileChars_eq_mobileSpecChars s.data

/-- Re-setting an already empty `invMessage` leaves the state unchanged. -/
theorem setInvMessage_empty_self (σ : AppState) (h : σ.invMessage = "") :
    { σ with invMessage := "" } = σ := by
  cases σ
  dsimp only at h
  subst h
  rfl

/-- Folding the sum over the filtered due invoices, with an accumulator. -/
theorem foldl_filter_due (invs : List Invoice) (a : Int) :
    (invs.filter (fun i => i.status == "due")).foldl (fun sum i => sum + i.amount) a
      = a + sumDueAmounts invs := by
  induction invs generalizing a with
  | nil => simp [sumDueAmounts]
  | cons i rest ih =>
      by_cases h : i.status = "due"
      · simp [List.filter_cons, h, sumDueAmounts, ih, add_assoc]
      · simp [List.filter_cons, h, sumDueAmounts, ih]

/-- C1: `isValidMobile` accepts a string iff it is exactly 10 decimal
digits whose first digit is 6, 7, 8 or 9; and `sendOtp` on a rejected
string sets the error message "Invalid mobile number" and issues no
network request (the state changes in no other way). -/
theorem C1_mobile_validation (σ : AppState) :
    (∀ s : String, isValidMobile s = mobileSpec s)
    ∧ (isValidMobile σ.mobile = false →
        (sendOtp σ).1 = { σ with error := "Invalid mobile number" }
        ∧ (sendOtp σ).2 = []) := by
  refine ⟨isValidMobile_eq_mobileSpec, fun h => ?_⟩
  simp [sendOtp, h]

/-- State with the rejected mobile "12345" for the C1 witness. -/
def exC1 : AppState := { baseState with mobile := "12345" }

/-- C1 witness: at the concrete rejected mobile "12345", `sendOtp` sets
the error and makes no request. -/
theorem C1_mobile_validation_witness :
    isValidMobile "12345" = false
    ∧ (sendOtp exC1).1 = { exC1 with error := "Invalid mobile number" }
    ∧ (sendOtp exC1).2 = [] := by
  have h := (C1_mobile_validation exC1).2 (by decide)
  exact ⟨by decide, h.1, h.2⟩

/-- C2: for every prior state and every apartment `apt`,
`handleSelectApartment` empties the unit, occupant and invoice lists and
clears the unit selection (id `null`, label empty); the state returned is
the one from which the single fetch of `apt`'s units is issued. -/
theorem C2_select_apartment_clears_children (σ : AppState) (apt : Apartment) :
    (handleSelectApartment σ apt).1.units = []
    ∧ (handleSelectApartment σ apt).1.occupants = []
    ∧ (handleSelectApartment σ apt).1.invoices = []
    ∧ (handleSelectApartment σ apt).1.selectedUnitId = none
    ∧ (handleSelectApartment σ apt).1.selectedUnitLabel = ""
    ∧ (handleSelectApartment σ apt).2 = [Request.getUnits (some apt.id)] :=
  ⟨rfl, rfl, rfl, rfl, rfl, rfl⟩

/-- State with a non-empty occupant and invoice list for the C3
counterexample. -/
def exC3 : AppState :=
  { baseState with
      selectedApartmentId := some 1,
      occupants := [exOccupant],
      invoices := [exInvoice] }

/-- C3 counterexample: selecting a unit from a state holding a non-empty
occupant list and invoice list leaves both lists non-empty — the handler
does not clear the dependent child lists before fetching. -/
theorem C3_counterexample :
    (handleSelectUnit exC3 exUnitA).1.occupants ≠ []
    ∧ (handleSelectUnit exC3 exUnitA).1.invoices ≠ [] := by
  constructor <;> decide

/-- C3 (amended): `handleSelectUnit` resets the occupant and invoice form
fields and messages before fetching the unit's occupants and invoices, but
it leaves the occupant and invoice lists themselves unchanged (they are
only replaced when the issued fetches resolve). -/
theorem C3_select_unit_resets_forms (σ : AppState) (u : AptUnit) :
    (handleSelectUnit σ u).1.occName = ""
    ∧ (handleSelectUnit σ u).1.occPhone = ""
    ∧ (handleSelectUnit σ u).1.occRole = "owner"
    ∧ (handleSelectUnit σ u).1.occMessage = ""
    ∧ (handleSelectUnit σ u).1.invPeriod = ""
    ∧ (handleSelectUnit σ u).1.invAmount = ""
    ∧ (handleSelectUnit σ u).1.invDueDate = ""
    ∧ (handleSelectUnit σ u).1.invMessage = ""
    ∧ (handleSelectUnit σ u).1.selectedUnitId = some u.id
    ∧ (handleSelectUnit σ u).1.occupants = σ.occupants
    ∧ (handleSelectUnit σ u).1.invoices = σ.invoices
    ∧ (handleSelectUnit σ u).2
        = [Request.getOccupants u.id,
           Request.getInvoices (some u.id) (monthArg σ.invFilterMonth)] :=
  ⟨rfl, rfl, rfl, rfl, rfl, rfl, rfl, rfl, rfl, rfl, rfl, rfl⟩

/-- C4: with a unit selected and the amount field empty or parsing to an
integer ≤ 0, `createInvoice` shows a validation popup, issues no network
request, and changes nothing but the popup (in every reachable state the
inline `invMessage` is already empty — no code path ever sets it non-empty
— so its unconditional re-clearing is the identity and the whole rest of
the state, the invoice list included, is unchanged). -/
theorem C4_create_invoice_rejects_nonpositive (σ : AppState) (uid : Nat)
    (hsel : σ.selectedUnitId = some uid)
    (hmsg : σ.invMessage = "")
    (hamt : invAmountInvalid σ.invAmount = true) :
    (createInvoice σ).2 = []
    ∧ (createInvoice σ).1.invoices = σ.invoices
    ∧ ∃ m, (createInvoice σ).1 = showPopupMessage σ m "error" := by
  have hσ := setInvMessage_empty_self σ hmsg
  by_cases hp1 : σ.invPeriod.trim = ""
  · refine ⟨?_, ?_, "Period label is required (e.g., \x27Jan 2024\x27)", ?_⟩ <;>
      simp [createInvoice, hsel, hσ, hp1, hmsg, showPopupMessage]
  · by_cases hp2 : σ.invPeriod.trim.length < 3
    · refine ⟨?_, ?_, "Period label must be at least 3 characters", ?_⟩ <;>
        simp [createInvoice, hsel, hσ, hp1, hp2, hmsg, showPopupMessage]
    · refine ⟨?_, ?_, "Amount must be greater than 0", ?_⟩ <;>
        simp [createInvoice, hsel, hσ, hp1, hp2, hamt, hmsg, showPopupMessage]

/-- State with a selected unit, a valid period and due date, the amount
field "0", and a non-empty invoice list, for the C4 witness. -/
def exC4 : AppState :=
  { baseState with
      selectedUnitId := some 1,
      invPeriod := "Jan 2024",
      invAmount := "0",
      invDueDate := "2024-01-31",
      invoices := [exInvoice] }

/-- C4 witness: at the concrete amount "0", `createInvoice` makes no
request, leaves the invoice list unchanged, and only shows a popup. -/
theorem C4_create_invoice_witness :
    invAmountInvalid "0" = true
    ∧ (createInvoice exC4).2 = []
    ∧ (createInvoice exC4).1.invoices = exC4.invoices
    ∧ ∃ m, (createInvoice exC4).1 = showPopupMessage exC4 m "error" := by
  have h := C4_create_invoice_rejects_nonpositive exC4 1 (by decide) (by decide) (by decide)
  exact ⟨by decide, h.1, h.2.1, h.2.2⟩

/-- C5: `markPaid` on a 2xx response triggers exactly the invoice-list
refresh for the currently selected unit with the current month filter and
the dashboard refresh; on a non-2xx response or a network exception it
shows an error popup, triggers no request, and leaves the invoice list and
dashboard unchanged.  `mobile` is non-empty in any session past login
(`fetchDashboard` returns early on an empty mobile). -/
theorem C5_mark_paid_refresh_or_error (σ : AppState) (invId : Nat) (hm : σ.mobile ≠ "") :
    ((markPaid σ invId MarkPaidResp.ok).2
        = [Request.getInvoices σ.selectedUnitId (monthArg σ.invFilterMonth),
           Request.getDashboard σ.accessToken])
    ∧ (∀ d, (markPaid σ invId (MarkPaidResp.httpError d)).2 = []
        ∧ (markPaid σ invId (MarkPaidResp.httpError d)).1.invoices = σ.invoices
        ∧ (markPaid σ invId (MarkPaidResp.httpError d)).1.dashboard = σ.dashboard
        ∧ (markPaid σ invId (MarkPaidResp.httpError d)).1.popupMessage
            = d.getD "Could not mark invoice as paid."
        ∧ (markPaid σ invId (MarkPaidResp.httpError d)).1.popupType = "error"
        ∧ (markPaid σ invId (MarkPaidResp.httpError d)).1.showPopup = true)
    ∧ ((markPaid σ invId MarkPaidResp.netError).2 = []
        ∧ (markPaid σ invId MarkPaidResp.netError).1.invoices = σ.invoices
        ∧ (markPaid σ invId MarkPaidResp.netError).1.dashboard = σ.dashboard
        ∧ (markPaid σ invId MarkPaidResp.netError).1.popupMessage = "Could not reach server."
        ∧ (markPaid σ invId MarkPaidResp.netError).1.popupType = "error"
        ∧ (markPaid σ invId MarkPaidResp.netError).1.showPopup = true) := by
  refine ⟨?_, fun d => ⟨rfl, rfl, rfl, rfl, rfl, rfl⟩, rfl, rfl, rfl, rfl, rfl, rfl⟩
  simp [markPaid, fetchDashboardCall, hm]

/-- Authenticated state with a selected unit and a cached invoice list and
dashboard, for the C5 witness. -/
def exC5 : AppState :=
  { baseState with
      mobile := "9876543210",
      accessToken := "tok123",
      step := "apartment",
      selectedUnitId := some 5,
      invoices := [exInvoice],
      dashboard := some { overall_due_amount := 1200, overall_paid_amount := 0 } }

/-- C5 witness: concrete refresh list on success and untouched state on a
network error. -/
theorem C5_mark_paid_witness :
    (markPaid exC5 1 MarkPaidResp.ok).2
        = [Request.getInvoices exC5.selectedUnitId (monthArg exC5.invFilterMonth),
           Request.getDashboard exC5.accessToken]
    ∧ (markPaid exC5 1 MarkPaidResp.netError).2 = []
    ∧ (markPaid exC5 1 MarkPaidResp.netError).1.invoices = exC5.invoices
    ∧ (markPaid exC5 1 MarkPaidResp.netError).1.dashboard = exC5.dashboard := by
  have h := C5_mark_paid_refresh_or_error exC5 1 (by decide)
  exact ⟨h.1, h.2.2.1, h.2.2.2.1, h.2.2.2.2.1⟩

/-- C6: `verifyOtp` on a 2xx response carrying an access token stores the
token, advances the step from "otp" to the authenticated "apartment" step,
and triggers the apartment-list and dashboard refreshes (both with the
fresh token); on a non-2xx response it sets the error message and leaves
the step and token unchanged, triggering nothing. -/
theorem C6_verify_otp_success_and_failure (σ : AppState)
    (hstep : σ.step = "otp") (hm : σ.mobile ≠ "") :
    (∀ tok, (verifyOtp σ (VerifyResp.ok tok)).1.accessToken = tok
        ∧ (verifyOtp σ (VerifyResp.ok tok)).1.step = "apartment"
        ∧ (verifyOtp σ (VerifyResp.ok tok)).2
            = [Request.getApartments tok, Request.getDashboard tok])
    ∧ (∀ d, (verifyOtp σ (VerifyResp.httpError d)).1.error
            = d.getD "OTP verification failed"
        ∧ (verifyOtp σ (VerifyResp.httpError d)).1.step = σ.step
        ∧ (verifyOtp σ (VerifyResp.httpError d)).1.accessToken = σ.accessToken
        ∧ (verifyOtp σ (VerifyResp.httpError d)).2 = []) := by
  refine ⟨fun tok => ⟨rfl, rfl, ?_⟩, fun d => ⟨rfl, rfl, rfl, rfl⟩⟩
  simp [verifyOtp, fetchDashboardCall, hm]

/-- State on the OTP screen for the C6 witness. -/
def exC6 : AppState :=
  { baseState with
      mobile := "9876543210",
      step := "otp",
      requestId := some 1,
      otp := "1234" }

/-- C6 witness: at a concrete OTP-step state, a 2xx response stores the
token, advances the step and issues both refreshes; a non-2xx response
leaves step and token in place. -/
theorem C6_verify_otp_witness :
    (verifyOtp exC6 (VerifyResp.ok "tok123")).1.accessToken = "tok123"
    ∧ (verifyOtp exC6 (VerifyResp.ok "tok123")).1.step = "apartment"
    ∧ (verifyOtp exC6 (VerifyResp.ok "tok123")).2
        = [Request.getApartments "tok123", Request.getDashboard "tok123"]
    ∧ (verifyOtp exC6 (VerifyResp.httpError none)).1.step = exC6.step
    ∧ (verifyOtp exC6 (VerifyResp.httpError none)).1.accessToken = exC6.accessToken := by
  have h := C6_verify_otp_success_and_failure exC6 rfl (by decide)
  exact ⟨(h.1 "tok123").1, (h.1 "tok123").2.1, (h.1 "tok123").2.2,
         (h.2 none).2.1, (h.2 none).2.2.1⟩

/-- Authenticated state holding a bearer token, for the C7 counterexample. -/
def exC7 : AppState :=
  { baseState with
      mobile := "9876543210",
      step := "apartment",
      accessToken := "tok123",
      createdApartments := [exApartment] }

/-- C7 counterexample: after a 401 response to `fetchApartments` or
`fetchDashboard`, the stored token is still "tok123" and the step is still
"apartment" — the client neither purges credentials nor forces a logout,
so it remains in the authenticated step holding credentials the backend
rejected. -/
theorem C7_counterexample :
    (fetchApartmentsResponse exC7 (FetchResp.httpError 401)).accessToken = "tok123"
    ∧ (fetchApartmentsResponse exC7 (FetchResp.httpError 401)).step = "apartment"
    ∧ (fetchDashboardResponse exC7 (DashResp.httpError 401)).accessToken = "tok123"
    ∧ (fetchDashboardResponse exC7 (DashResp.httpError 401)).step = "apartment" :=
  ⟨rfl, rfl, rfl, rfl⟩

/-- C7 (amended): a 401 response is treated like any other non-2xx
response: `fetchApartments` empties the apartment list and `fetchDashboard`
nulls the dashboard, while the token, the step and every credential field
stay exactly as they were; no logout or reload happens. -/
theorem C7_401_treated_as_plain_error (σ : AppState) (status : Nat) :
    ((fetchApartmentsResponse σ (FetchResp.httpError status)).createdApartments = []
      ∧ (fetchApartmentsResponse σ (FetchResp.httpError status)).accessToken = σ.accessToken
      ∧ (fetchApartmentsResponse σ (FetchResp.httpError status)).step = σ.step
      ∧ (fetchApartmentsResponse σ (FetchResp.httpError status)).mobile = σ.mobile)
    ∧ ((fetchDashboardResponse σ (DashResp.httpError status)).dashboard = none
      ∧ (fetchDashboardResponse σ (DashResp.httpError status)).accessToken = σ.accessToken
      ∧ (fetchDashboardResponse σ (DashResp.httpError status)).step = σ.step
      ∧ (fetchDashboardResponse σ (DashResp.httpError status)).mobile = σ.mobile) :=
  ⟨⟨rfl, rfl, rfl, rfl⟩, rfl, rfl, rfl, rfl⟩

/-- C8: the rendered "Total Due" summary — the source's filter on status
"due" folded with `+` over `amount` — equals the sum of `amount` over
exactly the invoices whose status is "due", for every non-empty invoice
list (invoices with status "paid" or anything else contribute nothing). -/
theorem C8_total_due_sum (invs : List Invoice) (h : invs ≠ []) :
    invoiceTotalDue invs = sumDueAmounts invs := by
  have hf := foldl_filter_due invs 0
  simpa [invoiceTotalDue] using hf

/-- Invoice list mixing due, paid and an unknown status, for the C8
witness. -/
def exInvoices : List Invoice :=
  [exInvoice, exInvoicePaid,
   { id := 3, period_label := "Mar 2024", amount := 500,
     due_date := "2024-03-31", status := "due" },
   { id := 4, period_label := "Apr 2024", amount := 999,
     due_date := "2024-04-30", status := "void" }]

/-- C8 witness: on a concrete mixed list the summary is 1200 + 500 = 1700;
the paid (800) and unknown-status (999) invoices contribute nothing. -/
theorem C8_total_due_witness :
    exInvoices ≠ [] ∧ invoiceTotalDue exInvoices = 1700
      ∧ sumDueAmounts exInvoices = 1700 := by
  refine ⟨by decide, ?_, by decide⟩
  rw [C8_total_due_sum exInvoices (by decide)]
  decide

/-- C9: every list-fetch handler stores the 2xx body's array when the
expected field is present, and the empty list on a non-2xx response, a
network exception, or a 2xx body lacking the array field — never the
previous list. -/
theorem C9_fetch_never_stale (σ : AppState) :
    (∀ r : FetchResp (List Apartment),
        (fetchApartmentsResponse σ r).createdApartments = respList r)
    ∧ (∀ r : FetchResp (List AptUnit), (fetchUnitsResponse σ r).units = respList r)
    ∧ (∀ r : FetchResp (List Occupant),
        (fetchOccupantsResponse σ r).occupants = respList r)
    ∧ (∀ r : FetchResp (List Invoice),
        (fetchInvoicesResponse σ r).invoices = respList r) := by
  refine ⟨?_, ?_, ?_, ?_⟩ <;>
    · intro r
      cases r with
      | ok body => cases body <;> rfl
      | httpError s => rfl
      | netError => rfl

/-- C10: after a confirmed delete that the backend answers with 2xx, the
unit selection, occupant list and invoice list are cleared exactly when
the deleted unit was the selected one, and are left untouched otherwise;
in both cases exactly the unit list and the dashboard are refreshed. -/
theorem C10_delete_unit_selected_frame (σ : AppState) (uid : Nat) (hm : σ.mobile ≠ "") :
    ((deleteUnit σ uid true DeleteResp.ok).2
        = [Request.getUnits σ.selectedApartmentId, Request.getDashboard σ.accessToken])
    ∧ (σ.selectedUnitId = some uid →
        (deleteUnit σ uid true DeleteResp.ok).1.selectedUnitId = none
        ∧ (deleteUnit σ uid true DeleteResp.ok).1.selectedUnitLabel = ""
        ∧ (deleteUnit σ uid true DeleteResp.ok).1.occupants = []
        ∧ (deleteUnit σ uid true DeleteResp.ok).1.invoices = [])
    ∧ (σ.selectedUnitId ≠ some uid →
        (deleteUnit σ uid true DeleteResp.ok).1.selectedUnitId = σ.selectedUnitId
        ∧ (deleteUnit σ uid true DeleteResp.ok).1.selectedUnitLabel = σ.selectedUnitLabel
        ∧ (deleteUnit σ uid true DeleteResp.ok).1.occupants = σ.occupants
        ∧ (deleteUnit σ uid true DeleteResp.ok).1.invoices = σ.invoices) := by
  refine ⟨?_, fun h => ?_, fun h => ?_⟩
  · simp [deleteUnit, fetchDashboardCall, hm]
  · simp [deleteUnit, showPopupMessage, h]
  · simp [deleteUnit, showPopupMessage, h]

/-- Authenticated state with unit 5 selected and cached occupants and
invoices, for the C10 witness. -/
def exC10 : AppState :=
  { baseState with
      mobile := "9876543210",
      accessToken := "tok123",
      step := "apartment",
      selectedApartmentId := some 1,
      selectedUnitId := some 5,
      selectedUnitLabel := "A-101 (2BHK, vacant)",
      occupants := [exOccupant],
      invoices := [exInvoice] }

/-- C10 witness: deleting the selected unit 5 clears the selection and the
child lists; deleting the unselected unit 7 leaves them all in place. -/
theorem C10_delete_unit_witness :
    ((deleteUnit exC10 5 true DeleteResp.ok).1.selectedUnitId = none
      ∧ (deleteUnit exC10 5 true DeleteResp.ok).1.occupants = []
      ∧ (deleteUnit exC10 5 true DeleteResp.ok).1.invoices = [])
    ∧ ((deleteUnit exC10 7 true DeleteResp.ok).1.selectedUnitId = exC10.selectedUnitId
      ∧ (deleteUnit exC10 7 true DeleteResp.ok).1.occupants = exC10.occupants
      ∧ (deleteUnit exC10 7 true DeleteResp.ok).1.invoices = exC10.invoices)
    ∧ (deleteUnit exC10 5 true DeleteResp.ok).2
        = [Request.getUnits exC10.selectedApartmentId,
           Request.getDashboard exC10.accessToken] := by
  have h5 := C10_delete_unit_selected_frame exC10 5 (by decide)
  have h7 := C10_delete_unit_selected_frame exC10 7 (by decide)
  have a := h5.2.1 (by decide)
  have b := h7.2.2 (by decide)
  exact ⟨⟨a.1, a.2.2.1, a.2.2.2⟩, ⟨b.1, b.2.2.1, b.2.2.2⟩, h5.1⟩
